import Mathlib

/-!
Shallow embedding of `plot_layout_all_in_one.py`: input validation, the area
computation `_areas`, the admission filter `find_fitting_objects`, and the
shelf layout engine `_simple_shelf_layout`. Python floats are modelled by
exact rationals; raised exceptions by `Except`.
-/

namespace PlotLayout

/-- An existing object record `{"width": w, "length": l}`; also the item
records consumed by the shelf layout engine (which only reads these keys). -/
structure Obj where
  width : ℚ
  length : ℚ
deriving DecidableEq

/-- A new-object (candidate) record `{"name": n, "width": w, "length": l}`. -/
structure NewObj where
  name : String
  width : ℚ
  length : ℚ
deriving DecidableEq

/-- The two exception classes used for validation failures: `TypeError` and
`ValueError`. -/
inductive Err where
  | invalidType
  | invalidValue
deriving DecidableEq

/-- Result dictionary of `find_fitting_objects`. -/
structure FitResult where
  free_space : ℚ
  fitting_objects : List String
deriving DecidableEq

/-- Rounding to two decimal places, modelling the `round(free_space, 2)` call.
The source rounds a Python float; on exact rationals we fix round-half-up
(the spec leaves the tie-breaking mode open). -/
def round2 (q : ℚ) : ℚ := (⌊q * 100 + 1 / 2⌋ : ℚ) / 100

/-- `_validate_positive_number`: in the typed embedding the
`isinstance(value, (int, float))` branch cannot fire, so only the
`value <= 0` check remains. -/
def validate_positive_number (value : ℚ) : Except Err Unit :=
  if value ≤ 0 then Except.error Err.invalidValue else Except.ok ()

/-- Truthiness of `obj["name"].strip()` being empty: the stripped string is
empty exactly when every character of the name is whitespace. -/
def blank_name (s : String) : Bool := s.data.all Char.isWhitespace

/-- `_validate_object_dict` for an existing-object record (required keys
`width`, `length`; key presence is enforced by the record type). -/
def validate_existing_object (obj : Obj) : Except Err Unit := do
  validate_positive_number obj.width
  validate_positive_number obj.length

/-- `_validate_object_dict` for a new-object record (required keys `name`,
`width`, `length`): the name must be a non-blank string, then both dimensions
must be positive. -/
def validate_new_object (obj : NewObj) : Except Err Unit :=
  if blank_name obj.name then Except.error Err.invalidValue
  else do
    validate_positive_number obj.width
    validate_positive_number obj.length

/-- The per-item loop of `_validate_inputs` over one object list. -/
def validate_list {α : Type} (f : α → Except Err Unit) : List α → Except Err Unit
  | [] => Except.ok ()
  | x :: xs => do
    f x
    validate_list f xs

/-- `_validate_inputs`: plot dimensions and border positive, border small
enough to leave usable area, then each object list validated item by item. -/
def validate_inputs (plot_width plot_length restricted_border : ℚ)
    (existing_objects : List Obj) (new_objects : List NewObj) : Except Err Unit := do
  validate_positive_number plot_width
  validate_positive_number plot_length
  validate_positive_number restricted_border
  if plot_width ≤ restricted_border * 2 ∨ plot_length ≤ restricted_border * 2 then
    Except.error Err.invalidValue
  else do
    validate_list validate_existing_object existing_objects
    validate_list validate_new_object new_objects

/-- `sum(obj["width"] * obj["length"] for obj in existing_objects)`. -/
def sum_existing_area (objs : List Obj) : ℚ :=
  (objs.map (fun o => o.width * o.length)).sum

/-- `_areas`: returns `(total_area, usable_area, free_space)` with the free
space clamped at zero and then rounded to two decimals. -/
def areas (plot_width plot_length restricted_border : ℚ)
    (existing_objects : List Obj) : ℚ × ℚ × ℚ :=
  let total_area := plot_width * plot_length
  let usable_w := plot_width - 2 * restricted_border
  let usable_l := plot_length - 2 * restricted_border
  let usable_area := usable_w * usable_l
  let existing_area := sum_existing_area existing_objects
  let free_space := round2 (max 0 (usable_area - existing_area))
  (total_area, usable_area, free_space)

/-- `find_fitting_objects`: validate, compute areas, short-circuit on zero
free space, otherwise admit each candidate whose own area fits. -/
def find_fitting_objects (plot_width plot_length restricted_border : ℚ)
    (existing_objects : List Obj) (new_objects : List NewObj) :
    Except Err FitResult := do
  validate_inputs plot_width plot_length restricted_border existing_objects new_objects
  let free_space := (areas plot_width plot_length restricted_border existing_objects).2.2
  if free_space ≤ 0 then
    return { free_space := 0, fitting_objects := [] }
  else
    return { free_space := free_space,
             fitting_objects := new_objects.filterMap (fun obj =>
               if obj.width * obj.length ≤ free_space then some obj.name else none) }

/-- The loop body state of `_simple_shelf_layout`: remaining items together
with the mutable cursor `(x, y)` and current row height. -/
def shelf_go (start_x start_y max_width max_length gap : ℚ) :
    List Obj → ℚ → ℚ → ℚ → List (ℚ × ℚ × Obj)
  | [], _x, _y, _row_h => []
  | it :: rest, x, y, row_h =>
    let w := it.width
    let h := it.length
    if max_width < w ∨ max_length < h then
      shelf_go start_x start_y max_width max_length gap rest x y row_h
    else
      let x1 := if start_x + max_width < x + w + gap then start_x + gap else x
      let y1 := if start_x + max_width < x + w + gap then y + row_h + gap else y
      let r1 := if start_x + max_width < x + w + gap then 0 else row_h
      if start_y + max_length < y1 + h + gap then
        shelf_go start_x start_y max_width max_length gap rest x1 y1 r1
      else
        (x1, y1, it) :: shelf_go start_x start_y max_width max_length gap rest (x1 + w + gap) y1 (max r1 h)

/-- `_simple_shelf_layout`: cursor starts at `(start_x + gap, start_y + gap)`
with row height `0`. -/
def simple_shelf_layout (items : List Obj)
    (start_x start_y max_width max_length gap : ℚ) : List (ℚ × ℚ × Obj) :=
  shelf_go start_x start_y max_width max_length gap items (start_x + gap) (start_y + gap) 0

/-- Two placed rectangles `(x, y, item)` have disjoint interiors: their open
x-ranges or their open y-ranges fail to intersect. -/
def disjointPlaced (p q : ℚ × ℚ × Obj) : Prop :=
  min (p.1 + p.2.2.width) (q.1 + q.2.2.width) ≤ max p.1 q.1 ∨
  min (p.2.1 + p.2.2.length) (q.2.1 + q.2.2.length) ≤ max p.2.1 q.2.1

instance : DecidableRel disjointPlaced := fun p q => by
  unfold disjointPlaced
  exact inferInstance

/-- The existing objects of the demo in `__main__`. -/
def demo_existing : List Obj := [⟨10, 20⟩, ⟨5, 5⟩]

/-- The new objects of the demo in `__main__`. -/
def demo_new : List NewObj := [⟨r"Shed", 10, 10⟩, ⟨r"Garage", 20, 30⟩, ⟨r"Cabin", 15, 15⟩]

theorem ok_bind {α β : Type} (a : α) (f : α → Except Err β) :
    (Except.ok a >>= f) = f a := rfl

theorem error_bind {α β : Type} (e : Err) (f : α → Except Err β) :
    (Except.error e >>= f : Except Err β) = Except.error e := rfl

theorem validate_positive_ok {v : ℚ} (h : 0 < v) :
    validate_positive_number v = Except.ok () := by
  unfold validate_positive_number
  rw [if_neg (not_le.mpr h)]

theorem validate_list_ok {α : Type} (f : α → Except Err Unit) (l : List α)
    (h : ∀ x ∈ l, f x = Except.ok ()) : validate_list f l = Except.ok () := by
  induction l with
  | nil => rfl
  | cons x xs ih =>
    show (f x >>= fun _ => validate_list f xs) = Except.ok ()
    rw [h x (List.mem_cons_self x xs), ok_bind]
    exact ih fun y hy => h y (List.mem_cons_of_mem x hy)

theorem validate_existing_ok {obj : Obj} (h1 : 0 < obj.width) (h2 : 0 < obj.length) :
    validate_existing_object obj = Except.ok () := by
  show (validate_positive_number obj.width >>= fun _ =>
    validate_positive_number obj.length) = Except.ok ()
  rw [validate_positive_ok h1, validate_positive_ok h2]
  rfl

theorem validate_new_ok {obj : NewObj} (h0 : blank_name obj.name = false)
    (h1 : 0 < obj.width) (h2 : 0 < obj.length) :
    validate_new_object obj = Except.ok () := by
  unfold validate_new_object
  rw [h0]
  show (validate_positive_number obj.width >>= fun _ =>
    validate_positive_number obj.length) = Except.ok ()
  rw [validate_positive_ok h1, validate_positive_ok h2]
  rfl

theorem validate_inputs_ok {W L b : ℚ} {ex : List Obj} {new : List NewObj}
    (hW : 0 < W) (hL : 0 < L) (hb : 0 < b) (hbW : 2 * b < W) (hbL : 2 * b < L)
    (hex : ∀ o ∈ ex, 0 < o.width ∧ 0 < o.length)
    (hnew : ∀ o ∈ new, blank_name o.name = false ∧ 0 < o.width ∧ 0 < o.length) :
    validate_inputs W L b ex new = Except.ok () := by
  unfold validate_inputs
  rw [validate_positive_ok hW, validate_positive_ok hL, validate_positive_ok hb]
  rw [if_neg (by push_neg; constructor <;> linarith)]
  rw [validate_list_ok validate_existing_object ex
    (fun o ho => validate_existing_ok (hex o ho).1 (hex o ho).2)]
  rw [validate_list_ok validate_new_object new
    (fun o ho => validate_new_ok (hnew o ho).1 (hnew o ho).2.1 (hnew o ho).2.2)]
  rfl

theorem find_error_of_validate_error {W L b : ℚ} {ex : List Obj} {new : List NewObj}
    {e : Err} (h : validate_inputs W L b ex new = Except.error e) :
    find_fitting_objects W L b ex new = Except.error e := by
  unfold find_fitting_objects
  rw [h]
  rfl

theorem find_of_validate_ok {W L b : ℚ} {ex : List Obj} {new : List NewObj}
    (h : validate_inputs W L b ex new = Except.ok ()) :
    find_fitting_objects W L b ex new =
      if (areas W L b ex).2.2 ≤ 0 then Except.ok ⟨0, []⟩
      else Except.ok ⟨(areas W L b ex).2.2,
        new.filterMap (fun obj =>
          if obj.width * obj.length ≤ (areas W L b ex).2.2 then some obj.name
          else none)⟩ := by
  unfold find_fitting_objects
  rw [h]
  rfl

theorem validate_ok_of_find_ok {W L b : ℚ} {ex : List Obj} {new : List NewObj}
    {r : FitResult} (h : find_fitting_objects W L b ex new = Except.ok r) :
    validate_inputs W L b ex new = Except.ok () := by
  cases hv : validate_inputs W L b ex new with
  | error e =>
    rw [find_error_of_validate_error hv] at h
    cases h
  | ok u =>
    cases u
    rfl

theorem round2_nonneg {q : ℚ} (h : 0 ≤ q) : 0 ≤ round2 q := by
  unfold round2
  have h2 : (0 : ℤ) ≤ ⌊q * 100 + 1 / 2⌋ := by
    rw [Int.floor_nonneg]
    linarith
  have h3 : (0 : ℚ) ≤ (⌊q * 100 + 1 / 2⌋ : ℚ) := by exact_mod_cast h2
  have h4 : (0 : ℚ) < 100 := by norm_num
  positivity

theorem areas_free_space {W L b : ℚ} {ex : List Obj} :
    (areas W L b ex).2.2 =
      round2 (max 0 ((W - 2 * b) * (L - 2 * b) - sum_existing_area ex)) := rfl

/-- C1: for every validated input (positive plot width `W`, plot length `L`
and border `b` with `2b < W` and `2b < L`, and object records that pass
validation), the `free_space` returned by `find_fitting_objects` equals
`max(0, (W-2b)(L-2b) - Σ existing width*length)` rounded to two decimals. -/
theorem claim_C1_free_space_formula (W L b : ℚ) (ex : List Obj) (new : List NewObj)
    (hW : 0 < W) (hL : 0 < L) (hb : 0 < b) (hbW : 2 * b < W) (hbL : 2 * b < L)
    (hex : ∀ o ∈ ex, 0 < o.width ∧ 0 < o.length)
    (hnew : ∀ o ∈ new, blank_name o.name = false ∧ 0 < o.width ∧ 0 < o.length) :
    ∃ r, find_fitting_objects W L b ex new = Except.ok r ∧
      r.free_space =
        round2 (max 0 ((W - 2 * b) * (L - 2 * b) - sum_existing_area ex)) := by
  have hv := validate_inputs_ok hW hL hb hbW hbL hex hnew
  by_cases hfs : (areas W L b ex).2.2 ≤ 0
  · refine ⟨⟨0, []⟩, ?_, ?_⟩
    · rw [find_of_validate_ok hv, if_pos hfs]
    · have h0 : 0 ≤ (areas W L b ex).2.2 := by
        rw [areas_free_space]
        exact round2_nonneg (le_max_left 0 _)
      show (0 : ℚ) = round2 (max 0 ((W - 2 * b) * (L - 2 * b) - sum_existing_area ex))
      rw [← areas_free_space]
      exact (le_antisymm hfs h0).symm
  · refine ⟨⟨(areas W L b ex).2.2, new.filterMap (fun obj =>
        if obj.width * obj.length ≤ (areas W L b ex).2.2 then some obj.name
        else none)⟩, ?_, ?_⟩
    · rw [find_of_validate_ok hv, if_neg hfs]
    · exact areas_free_space

/-- C1 witness: the demo input (`50 × 100` plot, border `4`, demo objects)
instantiates C1; the returned free space is `3639`. -/
theorem claim_C1_witness :
    ∃ r, find_fitting_objects 50 100 4 demo_existing demo_new = Except.ok r ∧
      r.free_space =
        round2 (max 0 ((50 - 2 * 4) * (100 - 2 * 4) - sum_existing_area demo_existing)) :=
  claim_C1_free_space_formula 50 100 4 demo_existing demo_new
    (by norm_num) (by norm_num) (by norm_num) (by norm_num) (by norm_num)
    (by
      intro o ho
      simp only [demo_existing, List.mem_cons, List.not_mem_nil, or_false] at ho
      rcases ho with h | h <;> subst h <;> exact ⟨by norm_num, by norm_num⟩)
    (by
      intro o ho
      simp only [demo_new, List.mem_cons, List.not_mem_nil, or_false] at ho
      rcases ho with h | h | h <;> subst h <;>
        exact ⟨by decide, by norm_num, by norm_num⟩)

/-- C2: whenever `find_fitting_objects` returns a result with positive free
space, its `fitting_objects` are exactly the names of the candidates whose own
area is at most that free space, in input order with duplicates kept: the
output is the order-preserving `filterMap` of the independent per-candidate
area test. -/
theorem claim_C2_admission_filter (W L b : ℚ) (ex : List Obj) (new : List NewObj)
    (r : FitResult) (hr : find_fitting_objects W L b ex new = Except.ok r)
    (hpos : 0 < r.free_space) :
    r.fitting_objects = new.filterMap (fun obj =>
      if obj.width * obj.length ≤ r.free_space then some obj.name else none) := by
  have hv := validate_ok_of_find_ok hr
  rw [find_of_validate_ok hv] at hr
  by_cases hfs : (areas W L b ex).2.2 ≤ 0
  · rw [if_pos hfs] at hr
    have h0 := Except.ok.inj hr
    rw [← h0] at hpos
    exact absurd hpos (lt_irrefl 0)
  · rw [if_neg hfs] at hr
    have h0 := Except.ok.inj hr
    subst h0
    rfl

/-- C2 witness: on the demo input all three candidate names are admitted in
input order, matching the per-candidate filter. -/
theorem claim_C2_witness :
    (⟨3639, [r"Shed", r"Garage", r"Cabin"]⟩ : FitResult).fitting_objects =
      demo_new.filterMap (fun obj =>
        if obj.width * obj.length ≤
            (⟨3639, [r"Shed", r"Garage", r"Cabin"]⟩ : FitResult).free_space
        then some obj.name else none) := by
  have h1 : blank_name (r"Shed") = false := by decide
  have h2 : blank_name (r"Garage") = false := by decide
  have h3 : blank_name (r"Cabin") = false := by decide
  have hr : find_fitting_objects 50 100 4 demo_existing demo_new =
      Except.ok ⟨3639, [r"Shed", r"Garage", r"Cabin"]⟩ := by
    simp only [find_fitting_objects, validate_inputs, validate_positive_number,
      validate_list, validate_existing_object, validate_new_object,
      areas, sum_existing_area, round2, demo_existing, demo_new, h1, h2, h3,
      ok_bind, error_bind]
    norm_num [List.filterMap]
    rfl
  exact claim_C2_admission_filter 50 100 4 demo_existing demo_new _ hr (by norm_num)

/-- C3: for positive plot dimensions and border, a border with `2b ≥ W` or
`2b ≥ L` makes `find_fitting_objects` fail with `InvalidValue` (the validator
raises before any area computation, so no result is produced). -/
theorem claim_C3_border_invalid (W L b : ℚ) (ex : List Obj) (new : List NewObj)
    (hW : 0 < W) (hL : 0 < L) (hb : 0 < b)
    (h : W ≤ 2 * b ∨ L ≤ 2 * b) :
    find_fitting_objects W L b ex new = Except.error Err.invalidValue := by
  have hv : validate_inputs W L b ex new = Except.error Err.invalidValue := by
    unfold validate_inputs
    rw [validate_positive_ok hW, validate_positive_ok hL, validate_positive_ok hb]
    rw [if_pos (by rcases h with h | h
                   exacts [Or.inl (by linarith), Or.inr (by linarith)])]
    rfl
  exact find_error_of_validate_error hv

/-- C3 witness: `plot_width = 50`, `border = 25` (so `2b ≥ W`) raises
`InvalidValue`. -/
theorem claim_C3_witness :
    (0 : ℚ) < 25 ∧ ((50 : ℚ) ≤ 2 * 25 ∨ (100 : ℚ) ≤ 2 * 25) ∧
    find_fitting_objects 50 100 25 [] [] = Except.error Err.invalidValue :=
  ⟨by norm_num, Or.inl (by norm_num),
    claim_C3_border_invalid 50 100 25 [] []
      (by norm_num) (by norm_num) (by norm_num) (Or.inl (by norm_num))⟩

/-- C6: when the computed free space is zero, `find_fitting_objects` returns
`free_space = 0` and an empty admission list, whatever the candidate list is
(the candidate loop is short-circuited). -/
theorem claim_C6_zero_short_circuit (W L b : ℚ) (ex : List Obj) (new : List NewObj)
    (r : FitResult) (hr : find_fitting_objects W L b ex new = Except.ok r)
    (h0 : (areas W L b ex).2.2 = 0) :
    r.free_space = 0 ∧ r.fitting_objects = [] := by
  have hv := validate_ok_of_find_ok hr
  rw [find_of_validate_ok hv, if_pos (le_of_eq h0)] at hr
  have heq := Except.ok.inj hr
  rw [← heq]
  exact ⟨rfl, rfl⟩

/-- C6 witness: usable area `100` against existing area `150` yields
`free_space = 0` and no admitted candidate, though a huge candidate is
offered. -/
theorem claim_C6_witness :
    find_fitting_objects 20 20 5 [⟨10, 15⟩] [⟨r"X", 100, 100⟩] = Except.ok ⟨0, []⟩ ∧
    (areas 20 20 5 [⟨10, 15⟩]).2.2 = 0 ∧
    ((⟨0, []⟩ : FitResult).free_space = 0 ∧
      (⟨0, []⟩ : FitResult).fitting_objects = []) := by
  have h1 : blank_name (r"X") = false := by decide
  have hr : find_fitting_objects 20 20 5 [⟨10, 15⟩] [⟨r"X", 100, 100⟩] =
      Except.ok ⟨0, []⟩ := by
    simp only [find_fitting_objects, validate_inputs, validate_positive_number,
      validate_list, validate_existing_object, validate_new_object,
      areas, sum_existing_area, round2, h1, ok_bind, error_bind]
    norm_num
    rfl
  have h0 : (areas 20 20 5 [⟨10, 15⟩]).2.2 = 0 := by
    norm_num [areas, sum_existing_area, round2]
  exact ⟨hr, h0, claim_C6_zero_short_circuit 20 20 5 _ _ _ hr h0⟩

/-- C7: every successful result of `find_fitting_objects` has non-negative
free space: a negative raw difference is clamped to zero before rounding. -/
theorem claim_C7_free_space_nonneg (W L b : ℚ) (ex : List Obj) (new : List NewObj)
    (r : FitResult) (hr : find_fitting_objects W L b ex new = Except.ok r) :
    0 ≤ r.free_space := by
  have hv := validate_ok_of_find_ok hr
  rw [find_of_validate_ok hv] at hr
  by_cases hfs : (areas W L b ex).2.2 ≤ 0
  · rw [if_pos hfs] at hr
    rw [← Except.ok.inj hr]
  · rw [if_neg hfs] at hr
    rw [← Except.ok.inj hr]
    exact le_of_lt (lt_of_not_le hfs)

/-- C7 witness: the demo result has free space `3639 ≥ 0`. -/
theorem claim_C7_witness :
    (0 : ℚ) ≤ (⟨3639, [r"Shed", r"Garage", r"Cabin"]⟩ : FitResult).free_space := by
  have h1 : blank_name (r"Shed") = false := by decide
  have h2 : blank_name (r"Garage") = false := by decide
  have h3 : blank_name (r"Cabin") = false := by decide
  have hr : find_fitting_objects 50 100 4 demo_existing demo_new =
      Except.ok ⟨3639, [r"Shed", r"Garage", r"Cabin"]⟩ := by
    simp only [find_fitting_objects, validate_inputs, validate_positive_number,
      validate_list, validate_existing_object, validate_new_object,
      areas, sum_existing_area, round2, demo_existing, demo_new, h1, h2, h3,
      ok_bind, error_bind]
    norm_num [List.filterMap]
    rfl
  exact claim_C7_free_space_nonneg 50 100 4 demo_existing demo_new _ hr

/-- C8: when validation fails with some classified error,
`find_fitting_objects` propagates exactly that error and produces no result
(the area pipeline after the validator never runs). -/
theorem claim_C8_validation_failure_propagates (W L b : ℚ) (ex : List Obj)
    (new : List NewObj) (e : Err)
    (h : validate_inputs W L b ex new = Except.error e) :
    find_fitting_objects W L b ex new = Except.error e :=
  find_error_of_validate_error h

/-- C8 witness: a candidate with `width = 0` makes validation fail with
`InvalidValue`, and `find_fitting_objects` surfaces that very error. -/
theorem claim_C8_witness :
    validate_inputs 50 100 4 [] [⟨r"A", 0, 5⟩] = Except.error Err.invalidValue ∧
    find_fitting_objects 50 100 4 [] [⟨r"A", 0, 5⟩] = Except.error Err.invalidValue := by
  have h1 : blank_name (r"A") = false := by decide
  have hv : validate_inputs 50 100 4 [] [⟨r"A", 0, 5⟩] = Except.error Err.invalidValue := by
    simp only [validate_inputs, validate_positive_number, validate_list,
      validate_existing_object, validate_new_object, h1, ok_bind, error_bind]
    norm_num
    rfl
  exact ⟨hv, claim_C8_validation_failure_propagates 50 100 4 [] [⟨r"A", 0, 5⟩] _ hv⟩

theorem shelf_go_within (sx sy mw ml gap : ℚ) (items : List Obj) :
    ∀ (x y row_h : ℚ) (p : ℚ × ℚ × Obj),
      p ∈ shelf_go sx sy mw ml gap items x y row_h →
      p.2.2.width ≤ mw ∧ p.2.2.length ≤ ml := by
  induction items with
  | nil =>
    intro x y row_h p hp
    simp [shelf_go] at hp
  | cons it rest ih =>
    intro x y row_h p hp
    simp only [shelf_go] at hp
    by_cases hbig : mw < it.width ∨ ml < it.length
    · rw [if_pos hbig] at hp
      exact ih x y row_h p hp
    · rw [if_neg hbig] at hp
      push_neg at hbig
      by_cases hreset : sx + mw < x + it.width + gap
      · simp only [if_pos hreset] at hp
        by_cases hhigh : sy + ml < y + row_h + gap + it.length + gap
        · simp only [if_pos hhigh] at hp
          exact ih _ _ _ p hp
        · simp only [if_neg hhigh] at hp
          rcases List.mem_cons.mp hp with h0 | hmem
          · subst h0
            exact ⟨hbig.1, hbig.2⟩
          · exact ih _ _ _ p hmem
      · simp only [if_neg hreset] at hp
        by_cases hhigh : sy + ml < y + it.length + gap
        · simp only [if_pos hhigh] at hp
          exact ih _ _ _ p hp
        · simp only [if_neg hhigh] at hp
          rcases List.mem_cons.mp hp with h0 | hmem
          · subst h0
            exact ⟨hbig.1, hbig.2⟩
          · exact ih _ _ _ p hmem

theorem shelf_go_sublist (sx sy mw ml gap : ℚ) (items : List Obj) :
    ∀ (x y row_h : ℚ),
      List.Sublist ((shelf_go sx sy mw ml gap items x y row_h).map (fun p => p.2.2))
        items := by
  induction items with
  | nil =>
    intro x y row_h
    simp [shelf_go]
  | cons it rest ih =>
    intro x y row_h
    simp only [shelf_go]
    by_cases hbig : mw < it.width ∨ ml < it.length
    · rw [if_pos hbig]
      exact List.Sublist.cons it (ih x y row_h)
    · rw [if_neg hbig]
      by_cases hreset : sx + mw < x + it.width + gap
      · simp only [if_pos hreset]
        by_cases hhigh : sy + ml < y + row_h + gap + it.length + gap
        · rw [if_pos hhigh]
          exact List.Sublist.cons it (ih _ _ _)
        · rw [if_neg hhigh]
          simp only [List.map_cons]
          exact List.Sublist.cons₂ it (ih _ _ _)
      · simp only [if_neg hreset]
        by_cases hhigh : sy + ml < y + it.length + gap
        · rw [if_pos hhigh]
          exact List.Sublist.cons it (ih _ _ _)
        · rw [if_neg hhigh]
          simp only [List.map_cons]
          exact List.Sublist.cons₂ it (ih _ _ _)

theorem shelf_go_frontier (sx sy mw ml gap : ℚ) (hgap : 0 ≤ gap) (items : List Obj) :
    ∀ (x y row_h : ℚ), (∀ o ∈ items, 0 ≤ o.width) →
      ∀ p ∈ shelf_go sx sy mw ml gap items x y row_h,
        (p.2.1 = y ∧ x ≤ p.1) ∨ (y + row_h + gap ≤ p.2.1) := by
  induction items with
  | nil =>
    intro x y row_h _ p hp
    simp [shelf_go] at hp
  | cons it rest ih =>
    intro x y row_h hw p hp
    have hwrest : ∀ o ∈ rest, 0 ≤ o.width := fun o ho => hw o (List.mem_cons_of_mem it ho)
    have hwit : 0 ≤ it.width := hw it (List.mem_cons_self it rest)
    simp only [shelf_go] at hp
    by_cases hbig : mw < it.width ∨ ml < it.length
    · rw [if_pos hbig] at hp
      exact ih x y row_h hwrest p hp
    · rw [if_neg hbig] at hp
      by_cases hreset : sx + mw < x + it.width + gap
      · simp only [if_pos hreset] at hp
        by_cases hhigh : sy + ml < y + row_h + gap + it.length + gap
        · simp only [if_pos hhigh] at hp
          rcases ih _ _ _ hwrest p hp with ⟨hy, _⟩ | hy
          · exact Or.inr (le_of_eq hy.symm)
          · exact Or.inr (by linarith)
        · simp only [if_neg hhigh] at hp
          rcases List.mem_cons.mp hp with h0 | hmem
          · subst h0
            exact Or.inr (le_refl _)
          · rcases ih _ _ _ hwrest p hmem with ⟨hy, _⟩ | hy
            · exact Or.inr (le_of_eq hy.symm)
            · have h0 : (0 : ℚ) ≤ max 0 it.length := le_max_left 0 _
              exact Or.inr (by linarith)
      · simp only [if_neg hreset] at hp
        by_cases hhigh : sy + ml < y + it.length + gap
        · simp only [if_pos hhigh] at hp
          exact ih _ _ _ hwrest p hp
        · simp only [if_neg hhigh] at hp
          rcases List.mem_cons.mp hp with h0 | hmem
          · subst h0
            exact Or.inl ⟨rfl, le_refl x⟩
          · rcases ih _ _ _ hwrest p hmem with ⟨hy, hx⟩ | hy
            · exact Or.inl ⟨hy, by linarith⟩
            · have hm : row_h ≤ max row_h it.length := le_max_left _ _
              exact Or.inr (by linarith)

theorem shelf_go_pairwise (sx sy mw ml gap : ℚ) (hgap : 0 ≤ gap) (items : List Obj) :
    ∀ (x y row_h : ℚ), (∀ o ∈ items, 0 ≤ o.width) →
      List.Pairwise disjointPlaced (shelf_go sx sy mw ml gap items x y row_h) := by
  induction items with
  | nil =>
    intro x y row_h _
    simp [shelf_go]
  | cons it rest ih =>
    intro x y row_h hw
    have hwrest : ∀ o ∈ rest, 0 ≤ o.width := fun o ho => hw o (List.mem_cons_of_mem it ho)
    simp only [shelf_go]
    by_cases hbig : mw < it.width ∨ ml < it.length
    · rw [if_pos hbig]
      exact ih x y row_h hwrest
    · rw [if_neg hbig]
      by_cases hreset : sx + mw < x + it.width + gap
      · simp only [if_pos hreset]
        by_cases hhigh : sy + ml < y + row_h + gap + it.length + gap
        · rw [if_pos hhigh]
          exact ih _ _ _ hwrest
        · rw [if_neg hhigh]
          refine List.Pairwise.cons ?_ (ih _ _ _ hwrest)
          intro q hq
          simp only [disjointPlaced]
          rcases shelf_go_frontier sx sy mw ml gap hgap rest _ _ _ hwrest q hq with
            ⟨hqy, hqx⟩ | hqy
          · refine Or.inl (le_trans (min_le_left _ _) (le_trans ?_ (le_max_right _ _)))
            linarith
          · refine Or.inr (le_trans (min_le_left _ _) (le_trans ?_ (le_max_right _ _)))
            have hm : it.length ≤ max 0 it.length := le_max_right _ _
            linarith
      · simp only [if_neg hreset]
        by_cases hhigh : sy + ml < y + it.length + gap
        · rw [if_pos hhigh]
          exact ih _ _ _ hwrest
        · rw [if_neg hhigh]
          refine List.Pairwise.cons ?_ (ih _ _ _ hwrest)
          intro q hq
          simp only [disjointPlaced]
          rcases shelf_go_frontier sx sy mw ml gap hgap rest _ _ _ hwrest q hq with
            ⟨hqy, hqx⟩ | hqy
          · refine Or.inl (le_trans (min_le_left _ _) (le_trans ?_ (le_max_right _ _)))
            linarith
          · refine Or.inr (le_trans (min_le_left _ _) (le_trans ?_ (le_max_right _ _)))
            have hm : it.length ≤ max row_h it.length := le_max_right _ _
            linarith

/-- C4 counterexample: as stated over every item list the claim is false: with
a negative-width item between two ordinary items (container `100 × 100` at the
origin, gap `0`), the cursor moves backwards and the third rectangle is placed
on top of the first, so the layout is not pairwise disjoint. -/
theorem claim_C4_counterexample :
    ¬ List.Pairwise disjointPlaced
        (simple_shelf_layout [⟨5, 5⟩, ⟨-5, 1⟩, ⟨5, 4⟩] 0 0 100 100 0) := by
  have hL : simple_shelf_layout [⟨5, 5⟩, ⟨-5, 1⟩, ⟨5, 4⟩] 0 0 100 100 0 =
      [(0, 0, ⟨5, 5⟩), (5, 0, ⟨-5, 1⟩), (0, 0, ⟨5, 4⟩)] := by
    norm_num [simple_shelf_layout, shelf_go]
  intro hp
  rw [hL] at hp
  rcases List.pairwise_cons.mp hp with ⟨h1, _⟩
  have h2 := h1 (0, 0, ⟨5, 4⟩) (by simp)
  simp only [disjointPlaced] at h2
  norm_num [min_def, max_def] at h2

/-- C4 (amended): for every item list whose items have non-negative widths
(validated objects always do), every container origin and extents, and every
non-negative gap, the placements returned by the shelf layout engine are
pairwise interior-disjoint. -/
theorem claim_C4_no_overlap (items : List Obj) (sx sy mw ml gap : ℚ)
    (hgap : 0 ≤ gap) (hw : ∀ o ∈ items, 0 ≤ o.width) :
    List.Pairwise disjointPlaced (simple_shelf_layout items sx sy mw ml gap) :=
  shelf_go_pairwise sx sy mw ml gap hgap items _ _ _ hw

/-- C4 witness: two ordinary items in a `10 × 10` container with gap `1` are
laid out pairwise disjoint. -/
theorem claim_C4_witness :
    List.Pairwise disjointPlaced (simple_shelf_layout [⟨2, 3⟩, ⟨4, 1⟩] 0 0 10 10 1) :=
  claim_C4_no_overlap [⟨2, 3⟩, ⟨4, 1⟩] 0 0 10 10 1 (by norm_num)
    (by
      intro o ho
      simp only [List.mem_cons, List.not_mem_nil, or_false] at ho
      rcases ho with h | h <;> subst h <;> norm_num)

/-- C5: every placed item fits the container extents: an item whose width
exceeds `max_width` or whose length exceeds `max_length` is never placed. -/
theorem claim_C5_within_container (items : List Obj) (sx sy mw ml gap : ℚ)
    (p : ℚ × ℚ × Obj) (hp : p ∈ simple_shelf_layout items sx sy mw ml gap) :
    p.2.2.width ≤ mw ∧ p.2.2.length ≤ ml :=
  shelf_go_within sx sy mw ml gap items _ _ _ p hp

/-- C5 witness: the single placement of a `2 × 3` item in a `10 × 10`
container satisfies both bounds. -/
theorem claim_C5_witness :
    ((1 : ℚ), (1 : ℚ), (⟨2, 3⟩ : Obj)).2.2.width ≤ 10 ∧
    ((1 : ℚ), (1 : ℚ), (⟨2, 3⟩ : Obj)).2.2.length ≤ 10 :=
  claim_C5_within_container [⟨2, 3⟩] 0 0 10 10 1 (1, 1, ⟨2, 3⟩)
    (by norm_num [simple_shelf_layout, shelf_go])

/-- C9: the shelf layout engine is a total function (it returns for every
item list, origin, extents and gap) and it only drops items: the placed items
form a sublist of the input in input order, so unfit items are silently
omitted rather than reported. -/
theorem claim_C9_unfit_items_omitted (items : List Obj) (sx sy mw ml gap : ℚ) :
    List.Sublist ((simple_shelf_layout items sx sy mw ml gap).map (fun p => p.2.2))
      items :=
  shelf_go_sublist sx sy mw ml gap items _ _ _

/-- C10: the right-edge check is not re-applied after a new-row reset: a
`9.5`-wide item in a width-`10` container with gap `1` (so it fits the
container but not a row with both margins) is placed at `x = 1`, and its right
edge `x + width = 10.5` protrudes past `start_x + max_width = 10`. -/
theorem claim_C10_right_edge_protrusion :
    (⟨19 / 2, 1⟩ : Obj).width ≤ 10 ∧ 10 < (⟨19 / 2, 1⟩ : Obj).width + 2 * 1 ∧
    ∃ p ∈ simple_shelf_layout [⟨19 / 2, 1⟩] 0 0 10 100 1,
      0 + 10 < p.1 + p.2.2.width := by
  refine ⟨by norm_num, by norm_num, ⟨(1, 2, ⟨19 / 2, 1⟩), ?_, by norm_num⟩⟩
  norm_num [simple_shelf_layout, shelf_go]

end PlotLayout
